import Mathlib

/-!
Shallow embedding of the Cirrus CI build trigger / poll / download
orchestrator (`scripts/cirrus/release.py`, with the classification chain
shared by `scripts/cirrus/build.py`).

The scripts talk to a remote GraphQL endpoint over HTTP.  Every remote
interaction is modelled by an oracle: a function giving, for each call
site, either the decoded JSON response (as a small structure holding just
the fields the Python code reads) or the fact that `urlopen`
/ `urlretrieve` raised.  The control flow of `main` is translated
statement by statement; the run produces a trace of observable events
(cancellation calls, build submissions, status polls, sleeps, artifact
downloads) together with a process outcome (exit 0, exit 2, or an
unhandled-exception crash).
-/

namespace Cirrus

/-- Result of one `urlopen`/`urlretrieve` round trip: either a decoded
response payload or a raised exception. -/
inductive NetResult (α : Type) where
  | ok (a : α)
  | exn
  deriving DecidableEq, Repr

/-- The fields of the build-status query response that
`check_build_status` reads: whether the top-level `errors` field is
present, and the value at `data.build.status` if present. -/
structure StatusResponse where
  errors : Option String
  status : Option String
  deriving DecidableEq, Repr

/-- `check_build_status` (release.py lines 96-107), given a decoded
response: an `errors` field yields `None`; a missing
`data.build.status` raises `KeyError`, caught, yielding `None`;
otherwise the status string is returned. -/
def check_build_status (r : StatusResponse) : Option String :=
  if (r.errors).isSome then
    none
  else
    match r.status with
    | none => none
    | some s => some s

/-- The fields of the build-tasks query response that
`check_build_tasks` reads. -/
structure TasksResponse where
  errors : Option String
  tasks : Option (List String)
  deriving DecidableEq, Repr

/-- `check_build_tasks` (release.py lines 110-142): an `errors` field or
a `KeyError` yields `None`, otherwise the list of task ids. -/
def check_build_tasks (r : TasksResponse) : Option (List String) :=
  if (r.errors).isSome then
    none
  else
    match r.tasks with
    | none => none
    | some l => some l

/-- `stop_build_tasks` (release.py lines 145-177).  The payload is the
list at `data.batchAbort.tasks` when present.  Unlike the two query
helpers, this function catches nothing: a transport error or a response
missing the expected fields (`KeyError`/`TypeError`) propagates to the
caller.  On a well-formed response it reports whether as many tasks were
aborted as were requested. -/
def stop_build_tasks (task_ids : List String)
    (net : NetResult (Option (List String))) : Except String Bool :=
  match net with
  | .exn => .error "urlopen"
  | .ok none => .error "KeyError"
  | .ok (some aborted) => .ok (aborted.length == task_ids.length)

/-- Python `s.startswith(pre)`, embedded as a prefix test on the
character lists (kernel-computable, unlike `String.startsWith`). -/
def pyStartsWith (s pre : String) : Bool := pre.data.isPrefixOf s.data

/-- Python `s.lower()` for the ASCII statuses involved, embedded as a
character-wise map (kernel-computable, unlike `String.toLower`). -/
def pyLower (s : String) : String := ⟨s.data.map Char.toLower⟩

/-- The status classification used by both cirrus scripts (release.py
lines 271-285, build.py lines 173-186): chained conditions on the raw
status string, in source order. -/
inductive BuildStatus where
  | COMPLETED
  | ABORTED
  | FAILED
  | PENDING
  deriving DecidableEq, Repr

/-- The chain of string tests applied to a (non-`None`) status string in
the poll loop, in the order the source applies them. -/
def classify (s : String) : BuildStatus :=
  if pyStartsWith s "COMPLETE" then .COMPLETED
  else if s == "ABORTED" then .ABORTED
  else if pyStartsWith (pyLower s) "fail" then .FAILED
  else .PENDING

/-- What one status poll observed, as recorded in the event trace. -/
inductive PollObs where
  | exn
  | got (resp : StatusResponse)
  deriving DecidableEq, Repr

/-- Observable events of one orchestrator run. -/
inductive Ev where
  /-- A `stop_build_tasks` call carrying the task ids of the previous
  attempt and the mutation id it was sent with. -/
  | stopCall (ids : List String) (mid : String)
  /-- A create-build mutation sent with the given mutation id. -/
  | submit (mid : String)
  /-- One `check_build_status` poll and what it observed. -/
  | pollEv (obs : PollObs)
  /-- A `sleep(secs)` call in the poll loop. -/
  | sleepEv (secs : Nat)
  /-- A `try_download` call; `status` is the status string that was just
  classified at the call site, `ok` whether `urlretrieve` succeeded for
  all artifacts. -/
  | downloadEv (status : String) (ok : Bool)
  deriving DecidableEq, Repr

/-- How the inner poll loop of one attempt ended: artifact download
succeeded, the attempt bailed on a terminal status, or the poll budget
ran out (the `for`-`else` branch). -/
inductive PollEnd where
  | success
  | bailed
  | timedOut
  deriving DecidableEq, Repr

/-- `MINUTES = 10` (release.py line 261). -/
def MINUTES : Nat := 10

/-- `SLEEP_SEC = 30` (release.py line 262). -/
def SLEEP_SEC : Nat := 30

/-- `TRIES = int(MINUTES * (60 / SLEEP_SEC))` (release.py line 263). -/
def TRIES : Nat := MINUTES * (60 / SLEEP_SEC)

/-- The poll loop `for attempt in range(TRIES)` of one attempt
(release.py lines 267-295), driven by the status-query oracle `net`
(per slot) and the download oracle `dl` (whether `try_download`
succeeds at that slot).  `fuel` is the number of remaining slots and
`slot` the current value of `attempt`.  Each slot: query the status
inside `try`; a raised exception, or the `AttributeError` raised by
`status.startswith` when the query returned `None`, is caught and
sleeps 60; a COMPLETE-prefixed status sleeps 5 then downloads (a
download exception is caught by the same handler); `ABORTED` and
`fail*` break; anything else sleeps the 30-second interval unless this
is the final slot. -/
def pollLoop (net : Nat → NetResult StatusResponse) (dl : Nat → Bool) :
    Nat → Nat → List Ev × PollEnd
  | 0, _ => ([], .timedOut)
  | fuel + 1, slot =>
    match net slot with
    | .exn =>
      let r := pollLoop net dl fuel (slot + 1)
      (.pollEv .exn :: .sleepEv 60 :: r.1, r.2)
    | .ok resp =>
      match check_build_status resp with
      | none =>
        let r := pollLoop net dl fuel (slot + 1)
        (.pollEv (.got resp) :: .sleepEv 60 :: r.1, r.2)
      | some s =>
        if pyStartsWith s "COMPLETE" then
          if dl slot then
            ([.pollEv (.got resp), .sleepEv 5, .downloadEv s true], .success)
          else
            let r := pollLoop net dl fuel (slot + 1)
            (.pollEv (.got resp) :: .sleepEv 5 :: .downloadEv s false ::
              .sleepEv 60 :: r.1, r.2)
        else if s == "ABORTED" then
          ([.pollEv (.got resp)], .bailed)
        else if pyStartsWith (pyLower s) "fail" then
          ([.pollEv (.got resp)], .bailed)
        else if slot + 1 < TRIES then
          let r := pollLoop net dl fuel (slot + 1)
          (.pollEv (.got resp) :: .sleepEv 30 :: r.1, r.2)
        else
          let r := pollLoop net dl fuel (slot + 1)
          (.pollEv (.got resp) :: r.1, r.2)

/-- Python truthiness of the `tasks` variable of `main`: it holds `[]`
initially, and afterwards the result of `check_build_tasks` (`None` or a
list); only a non-empty list is truthy. -/
def pyTruthyTasks : Option (List String) → Bool
  | some (_ :: _) => true
  | _ => false

/-- Python truthiness of the `mutation_id` variable of `main`: `None`
initially, afterwards a string; only a non-empty string is truthy. -/
def pyTruthyStr : Option String → Bool
  | some s => !(s == "")
  | none => false

/-- `SLEEP_MINUTES = 4` (release.py line 252). -/
def SLEEP_MINUTES : Nat := 4

/-- The post-submission quiescence loop
`for _ in range(SLEEP_MINUTES * 6): sleep(10); if not tasks: tasks = check_build_tasks(...)`
(release.py lines 256-259).  `tnet` gives the decoded response of the
q-th tasks query of this attempt; a raised `urlopen` exception is
unhandled in `main`, so it aborts the run. -/
def quiesce (tnet : Nat → NetResult TasksResponse) :
    Nat → Option (List String) → Nat → Except String (Option (List String))
  | 0, tasks, _ => .ok tasks
  | n + 1, tasks, q =>
    if pyTruthyTasks tasks then
      quiesce tnet n tasks q
    else
      match tnet q with
      | .exn => .error "urlopen"
      | .ok r => quiesce tnet n (check_build_tasks r) (q + 1)

/-- Decimal digits of a natural number, least significant first, with
explicit fuel (any fuel at least the value itself suffices). -/
def decDigitsRevAux : Nat → Nat → List Nat
  | 0, n => [n]
  | fuel + 1, n => if n < 10 then [n] else n % 10 :: decDigitsRevAux fuel (n / 10)

/-- Decimal digits of a natural number, least significant first, as
Python renders an `int`. -/
def decDigitsRev (n : Nat) : List Nat := decDigitsRevAux n n

/-- The decimal character of a digit. -/
def digitChar (d : Nat) : Char := Char.ofNat (48 + d)

/-- Python decimal rendering of a non-negative `int` (mirrors
`"{}".format(int(time()))`). -/
def pyIntStr (n : Nat) : String :=
  ⟨((decDigitsRev n).map digitChar).reverse⟩

/-- `mutation_id = "Cirrus CI Build {}-{}-{}".format(build_type, branch, int(time()))`
(release.py lines 232-234). -/
def mkMutationId (build_type branch : String) (t : Nat) : String :=
  "Cirrus CI Build " ++ build_type ++ "-" ++ branch ++ "-" ++ pyIntStr t

/-- The fields of the create-build mutation response that `main` reads:
the `errors` field and `data.createBuild.build.id`. -/
structure CreateResponse where
  errors : Option String
  buildId : Option String
  deriving DecidableEq, Repr

/-- The state `main` carries between iterations of the outer retry
loop: the `tasks` and `mutation_id` variables. -/
structure LoopState where
  tasks : Option (List String)
  mutationId : Option String
  deriving DecidableEq, Repr

/-- The remote world one run interacts with.  Indices: `i` is the outer
attempt number, `q` the query count within the quiescence loop, `k` the
poll slot. -/
structure Oracle where
  /-- Decoded response of the `stop_build_tasks` call of attempt `i`
  (payload: `data.batchAbort.tasks` when present). -/
  stopNet : Nat → NetResult (Option (List String))
  /-- `int(time())` read when attempt `i` builds its mutation id. -/
  timeAt : Nat → Nat
  /-- Decoded response of the create-build mutation of attempt `i`. -/
  createNet : Nat → NetResult CreateResponse
  /-- Decoded response of the `q`-th tasks query of attempt `i`. -/
  tasksNet : Nat → Nat → NetResult TasksResponse
  /-- Decoded response of the status query at poll slot `k` of attempt
  `i`. -/
  statusNet : Nat → Nat → NetResult StatusResponse
  /-- Whether `try_download` succeeds for all artifacts when invoked at
  poll slot `k` of attempt `i`. -/
  dl : Nat → Nat → Bool

/-- How one attempt of the outer loop ended. -/
inductive AttemptRes where
  | success
  | fail
  | crash (msg : String)
  deriving DecidableEq, Repr

/-- Outcome of the whole process. -/
inductive Outcome where
  | exitOk
  | exitCode (n : Nat)
  | crash (msg : String)
  deriving DecidableEq, Repr

/-- The `if tasks and mutation_id: ... stop_build_tasks ...` step at the
top of each outer-loop iteration (release.py lines 221-229).  The call
site sits outside any `try`, so an exception from `stop_build_tasks`
aborts the run; a `False` return is only logged. -/
def stopPhase (o : Oracle) (i : Nat) (st : LoopState) :
    List Ev × Except String Unit :=
  match st.tasks, st.mutationId with
  | some (t :: ts), some m =>
    if m == "" then
      ([], .ok ())
    else
      ([.stopCall (t :: ts) m],
        match stop_build_tasks (t :: ts) (o.stopNet i) with
        | .error e => .error e
        | .ok _ => .ok ())
  | _, _ => ([], .ok ())

/-- One iteration of the outer retry loop (release.py lines 215-295):
kill the previous attempt's tasks if any were recorded, reset `tasks`,
generate a fresh mutation id, submit the build, and on a well-formed
response run the quiescence loop and then the poll loop.  Returns the
events of the attempt, how it ended, and the `tasks`/`mutation_id`
state left for the next iteration. -/
def attemptRun (o : Oracle) (bt br : String) (i : Nat) (st : LoopState) :
    List Ev × AttemptRes × LoopState :=
  match stopPhase o i st with
  | (sevs, .error e) => (sevs, .crash e, st)
  | (sevs, .ok ()) =>
    let mid := mkMutationId bt br (o.timeAt i)
    let st1 : LoopState := ⟨some [], some mid⟩
    match o.createNet i with
    | .exn => (sevs ++ [.submit mid], .crash "urlopen", st1)
    | .ok resp =>
      if (resp.errors).isSome then
        (sevs ++ [.submit mid], .fail, st1)
      else
        match resp.buildId with
        | none => (sevs ++ [.submit mid], .fail, st1)
        | some _bid =>
          match quiesce (o.tasksNet i) (SLEEP_MINUTES * 6) st1.tasks 0 with
          | .error e => (sevs ++ [.submit mid], .crash e, st1)
          | .ok tasks2 =>
            let st2 : LoopState := ⟨tasks2, some mid⟩
            let p := pollLoop (o.statusNet i) (o.dl i) TRIES 0
            match p.2 with
            | .success => (sevs ++ [.submit mid] ++ p.1, .success, st2)
            | _ => (sevs ++ [.submit mid] ++ p.1, .fail, st2)

/-- `MAX_ATTEMPTS = 5` (release.py line 210). -/
def MAX_ATTEMPTS : Nat := 5

/-- The outer loop `for i in range(MAX_ATTEMPTS)` followed by
`if not success: exit(2)` (release.py lines 215-298): run attempts until
one succeeds (exit 0 by falling off `main`), the budget is exhausted
(exit 2), or an unhandled exception escapes. -/
def runAttempts (o : Oracle) (bt br : String) :
    Nat → Nat → LoopState → List Ev × Outcome
  | 0, _, _ => ([], .exitCode 2)
  | fuel + 1, i, st =>
    match attemptRun o bt br i st with
    | (evs, .success, _) => (evs, .exitOk)
    | (evs, .crash e, _) => (evs, .crash e)
    | (evs, .fail, st2) =>
      let r := runAttempts o bt br fuel (i + 1) st2
      (evs ++ r.1, r.2)

/-- The fresh-submission path of `main` (no build id argument):
`tasks = []`, `mutation_id = None`, then the bounded outer loop. -/
def runRelease (o : Oracle) (bt br : String) : List Ev × Outcome :=
  runAttempts o bt br MAX_ATTEMPTS 0 ⟨some [], none⟩

/-- The resume path of `main` (release.py lines 202-207): a previously
known build id was passed as the fourth CLI argument.  One unguarded
status query; `status.startswith("COMPLETE")` on a `None` status raises
`AttributeError`, and there is no handler on this path; a download
failure is likewise unhandled.  Any non-COMPLETE outcome falls through
to a normal exit. -/
def resumeRun (net : NetResult StatusResponse) (dl : Bool) :
    List Ev × Outcome :=
  match net with
  | .exn => ([.pollEv .exn], .crash "urlopen")
  | .ok resp =>
    match check_build_status resp with
    | none => ([.pollEv (.got resp)], .crash "AttributeError")
    | some s =>
      if pyStartsWith s "COMPLETE" then
        if dl then
          ([.pollEv (.got resp), .downloadEv s true], .exitOk)
        else
          ([.pollEv (.got resp), .downloadEv s false], .crash "urlretrieve")
      else
        ([.pollEv (.got resp)], .exitOk)

/-- Number of status polls in a trace. -/
def countPolls : List Ev → Nat
  | [] => 0
  | .pollEv _ :: rest => countPolls rest + 1
  | _ :: rest => countPolls rest

/-- Number of `try_download` invocations in a trace. -/
def countDownloads : List Ev → Nat
  | [] => 0
  | .downloadEv _ _ :: rest => countDownloads rest + 1
  | _ :: rest => countDownloads rest

/-- Number of `stop_build_tasks` calls in a trace. -/
def countStops : List Ev → Nat
  | [] => 0
  | .stopCall _ _ :: rest => countStops rest + 1
  | _ :: rest => countStops rest

/-- Event predicate: a download event was triggered by a
COMPLETE-prefixed status (other events pass vacuously). -/
def dlAfterComplete : Ev → Bool
  | .downloadEv s _ => pyStartsWith s "COMPLETE"
  | _ => true

/-- Value of a least-significant-first digit list. -/
def fromDigitsRev : List Nat → Nat
  | [] => 0
  | d :: ds => d + 10 * fromDigitsRev ds

/-- Read a decimal string back into its value (inverse of `pyIntStr`). -/
def pyStrVal (s : String) : Nat :=
  fromDigitsRev ((s.data.map (fun c => c.toNat - 48)).reverse)

/-- A status-query outcome that the poll loop will not classify as
COMPLETED: an exception, a `None` status, or a status string without the
`COMPLETE` prefix. -/
def notCompletePoll : NetResult StatusResponse → Bool
  | .exn => true
  | .ok r =>
    match check_build_status r with
    | none => true
    | some s => !(pyStartsWith s "COMPLETE")

/-- Attempt `i` of the oracle raises no exception at the three call
sites of `main` that sit outside the poll-loop `try` handler: the
cancellation call, the create-build submission, and the quiescence task
queries. -/
def attemptSafe (o : Oracle) (i : Nat) : Bool :=
  !(o.stopNet i == .exn) && !(o.stopNet i == .ok none)
    && !(o.createNet i == .exn)
    && (List.range (SLEEP_MINUTES * 6)).all (fun q => !(o.tasksNet i q == .exn))

/-- Oracle for the C3 counterexample: the build completes, but
`urlretrieve` fails at the first poll slot and succeeds at the second. -/
def oDlFail : Oracle where
  stopNet := fun _ => .ok (some [])
  timeAt := fun i => 1000 + i
  createNet := fun _ => .ok ⟨none, some "b1"⟩
  tasksNet := fun _ _ => .ok ⟨none, some ["t1"]⟩
  statusNet := fun _ _ => .ok ⟨none, some "COMPLETED"⟩
  dl := fun _ k => !(k == 0)

/-- Oracle for the C5 counterexample: every attempt reads the same
integer second from the clock, and every create-build response carries
an `errors` field, so attempts follow each other immediately. -/
def oSameSecond : Oracle where
  stopNet := fun _ => .ok (some [])
  timeAt := fun _ => 777
  createNet := fun _ => .ok ⟨some "err", none⟩
  tasksNet := fun _ _ => .ok ⟨none, some ["t1"]⟩
  statusNet := fun _ _ => .ok ⟨none, some "COMPLETED"⟩
  dl := fun _ _ => true

/-- Oracle for the C7 counterexample: attempt 1 records tasks and bails
on `ABORTED`; the cancellation call of attempt 2 raises. -/
def oStopRaises : Oracle where
  stopNet := fun _ => .exn
  timeAt := fun i => 500 + i
  createNet := fun _ => .ok ⟨none, some "b1"⟩
  tasksNet := fun _ _ => .ok ⟨none, some ["t1", "t2"]⟩
  statusNet := fun _ _ => .ok ⟨none, some "ABORTED"⟩
  dl := fun _ _ => true

/-- Oracle for the C9 witness and end-to-end scenario 3: every status
poll returns the string `FAILING`. -/
def oAllFailing : Oracle where
  stopNet := fun _ => .ok (some [])
  timeAt := fun i => 900 + i
  createNet := fun _ => .ok ⟨none, some "b1"⟩
  tasksNet := fun _ _ => .ok ⟨none, some ["t1"]⟩
  statusNet := fun _ _ => .ok ⟨none, some "FAILING"⟩
  dl := fun _ _ => true

/-- Status-query oracle for the C8 counterexample: the first poll gets a
response with an `errors` field (so `check_build_status` returns
`None`), the second a completed status. -/
def pollErrThenComplete : Nat → NetResult StatusResponse :=
  fun k => if k == 0 then .ok ⟨some "boom", none⟩ else .ok ⟨none, some "COMPLETED"⟩

/-- Generic happy-path oracle used by several witnesses: build created,
one task recorded, completed at the first poll, download succeeds. -/
def oHappy : Oracle where
  stopNet := fun _ => .ok (some ["t1"])
  timeAt := fun i => 100 + i
  createNet := fun _ => .ok ⟨none, some "b1"⟩
  tasksNet := fun _ _ => .ok ⟨none, some ["t1"]⟩
  statusNet := fun _ _ => .ok ⟨none, some "COMPLETED"⟩
  dl := fun _ _ => true

/-! ## Poll-loop lemmas -/

theorem countPolls_pollLoop (net : Nat → NetResult StatusResponse)
    (dl : Nat → Bool) :
    ∀ fuel slot, countPolls (pollLoop net dl fuel slot).1 ≤ fuel := by
  intro fuel
  induction fuel with
  | zero => intro slot; simp [pollLoop, countPolls]
  | succ n ih =>
    intro slot
    cases h : net slot with
    | exn =>
      simp only [pollLoop, h, countPolls]
      exact Nat.succ_le_succ (ih (slot + 1))
    | ok resp =>
      cases hc : check_build_status resp with
      | none =>
        simp only [pollLoop, h, hc, countPolls]
        exact Nat.succ_le_succ (ih (slot + 1))
      | some s =>
        by_cases h1 : pyStartsWith s "COMPLETE"
        · by_cases h2 : dl slot
          · simp [pollLoop, h, hc, h1, h2, countPolls]
          · simp only [pollLoop, h, hc, h1, h2, if_true, if_false, countPolls]
            exact Nat.succ_le_succ (ih (slot + 1))
        · by_cases h2 : s == "ABORTED"
          · simp [pollLoop, h, hc, h1, h2, countPolls]
          · by_cases h3 : pyStartsWith (pyLower s) "fail"
            · simp [pollLoop, h, hc, h1, h2, h3, countPolls]
            · by_cases h4 : slot + 1 < TRIES
              · simp only [pollLoop, h, hc, h1, h2, h3, h4, if_true, if_false,
                  countPolls]
                exact Nat.succ_le_succ (ih (slot + 1))
              · simp only [pollLoop, h, hc, h1, h2, h3, h4, if_true, if_false,
                  countPolls]
                exact Nat.succ_le_succ (ih (slot + 1))

theorem all_dlAfterComplete_pollLoop (net : Nat → NetResult StatusResponse)
    (dl : Nat → Bool) :
    ∀ fuel slot, ((pollLoop net dl fuel slot).1.all dlAfterComplete) = true := by
  intro fuel
  induction fuel with
  | zero => intro slot; simp [pollLoop]
  | succ n ih =>
    intro slot
    cases h : net slot with
    | exn =>
      simp only [pollLoop, h, List.all_cons, dlAfterComplete, Bool.true_and]
      exact ih (slot + 1)
    | ok resp =>
      cases hc : check_build_status resp with
      | none =>
        simp only [pollLoop, h, hc, List.all_cons, dlAfterComplete, Bool.true_and]
        exact ih (slot + 1)
      | some s =>
        by_cases h1 : pyStartsWith s "COMPLETE"
        · by_cases h2 : dl slot
          · simp [pollLoop, h, hc, h1, h2, dlAfterComplete]
          · simp only [pollLoop, h, hc, h1, h2, Bool.false_eq_true, if_true,
              if_false, List.all_cons, dlAfterComplete, Bool.true_and]
            exact ih (slot + 1)
        · by_cases h2 : s == "ABORTED"
          · simp [pollLoop, h, hc, h1, h2, dlAfterComplete]
          · by_cases h3 : pyStartsWith (pyLower s) "fail"
            · simp [pollLoop, h, hc, h1, h2, h3, dlAfterComplete]
            · by_cases h4 : slot + 1 < TRIES
              · simp only [pollLoop, h, hc, h1, h2, h3, h4, if_true, if_false,
                  List.all_cons, dlAfterComplete, Bool.true_and]
                exact ih (slot + 1)
              · simp only [pollLoop, h, hc, h1, h2, h3, h4, if_true, if_false,
                  List.all_cons, dlAfterComplete, Bool.true_and]
                exact ih (slot + 1)

theorem countStops_pollLoop (net : Nat → NetResult StatusResponse)
    (dl : Nat → Bool) :
    ∀ fuel slot, countStops (pollLoop net dl fuel slot).1 = 0 := by
  intro fuel
  induction fuel with
  | zero => intro slot; simp [pollLoop, countStops]
  | succ n ih =>
    intro slot
    cases h : net slot with
    | exn =>
      simp only [pollLoop, h, countStops]
      exact ih (slot + 1)
    | ok resp =>
      cases hc : check_build_status resp with
      | none =>
        simp only [pollLoop, h, hc, countStops]
        exact ih (slot + 1)
      | some s =>
        by_cases h1 : pyStartsWith s "COMPLETE"
        · by_cases h2 : dl slot
          · simp [pollLoop, h, hc, h1, h2, countStops]
          · simp only [pollLoop, h, hc, h1, h2, if_true, if_false, countStops]
            exact ih (slot + 1)
        · by_cases h2 : s == "ABORTED"
          · simp [pollLoop, h, hc, h1, h2, countStops]
          · by_cases h3 : pyStartsWith (pyLower s) "fail"
            · simp [pollLoop, h, hc, h1, h2, h3, countStops]
            · by_cases h4 : slot + 1 < TRIES
              · simp only [pollLoop, h, hc, h1, h2, h3, h4, if_true, if_false,
                  countStops]
                exact ih (slot + 1)
              · simp only [pollLoop, h, hc, h1, h2, h3, h4, if_true, if_false,
                  countStops]
                exact ih (slot + 1)

theorem pollLoop_success_download (net : Nat → NetResult StatusResponse)
    (dl : Nat → Bool) :
    ∀ fuel slot, (pollLoop net dl fuel slot).2 = .success →
      ∃ s, pyStartsWith s "COMPLETE" = true ∧
        Ev.downloadEv s true ∈ (pollLoop net dl fuel slot).1 := by
  intro fuel
  induction fuel with
  | zero => intro slot hend; simp [pollLoop] at hend
  | succ n ih =>
    intro slot hend
    cases h : net slot with
    | exn =>
      simp only [pollLoop, h] at hend ⊢
      obtain ⟨s, hs, hm⟩ := ih (slot + 1) hend
      exact ⟨s, hs, by simp [hm]⟩
    | ok resp =>
      cases hc : check_build_status resp with
      | none =>
        simp only [pollLoop, h, hc] at hend ⊢
        obtain ⟨s, hs, hm⟩ := ih (slot + 1) hend
        exact ⟨s, hs, by simp [hm]⟩
      | some s =>
        by_cases h1 : pyStartsWith s "COMPLETE"
        · by_cases h2 : dl slot
          · refine ⟨s, h1, ?_⟩
            simp [pollLoop, h, hc, h1, h2]
          · simp only [pollLoop, h, hc, h1, h2, if_true, if_false] at hend ⊢
            obtain ⟨t, ht, hm⟩ := ih (slot + 1) hend
            exact ⟨t, ht, by simp [hm]⟩
        · by_cases h2 : s == "ABORTED"
          · simp [pollLoop, h, hc, h1, h2] at hend
          · by_cases h3 : pyStartsWith (pyLower s) "fail"
            · simp [pollLoop, h, hc, h1, h2, h3] at hend
            · by_cases h4 : slot + 1 < TRIES
              · simp only [pollLoop, h, hc, h1, h2, h3, h4, if_true, if_false]
                  at hend ⊢
                obtain ⟨t, ht, hm⟩ := ih (slot + 1) hend
                exact ⟨t, ht, by simp [hm]⟩
              · simp only [pollLoop, h, hc, h1, h2, h3, h4, if_true, if_false]
                  at hend ⊢
                obtain ⟨t, ht, hm⟩ := ih (slot + 1) hend
                exact ⟨t, ht, by simp [hm]⟩

theorem pollLoop_notComplete (net : Nat → NetResult StatusResponse)
    (dl : Nat → Bool) :
    ∀ fuel slot, (∀ k, slot ≤ k → k < slot + fuel → notCompletePoll (net k) = true) →
      (pollLoop net dl fuel slot).2 ≠ .success ∧
        countDownloads (pollLoop net dl fuel slot).1 = 0 := by
  intro fuel
  induction fuel with
  | zero => intro slot _; simp [pollLoop, countDownloads]
  | succ n ih =>
    intro slot hno
    have hrest : ∀ k, slot + 1 ≤ k → k < (slot + 1) + n → notCompletePoll (net k) = true := by
      intro k hk1 hk2
      exact hno k (by omega) (by omega)
    have hslot : notCompletePoll (net slot) = true := hno slot (by omega) (by omega)
    cases h : net slot with
    | exn =>
      simp only [pollLoop, h, countDownloads]
      exact ih (slot + 1) hrest
    | ok resp =>
      cases hc : check_build_status resp with
      | none =>
        simp only [pollLoop, h, hc, countDownloads]
        exact ih (slot + 1) hrest
      | some s =>
        have h1 : pyStartsWith s "COMPLETE" = false := by
          rw [h] at hslot
          simp only [notCompletePoll, hc] at hslot
          simpa using hslot
        by_cases h2 : s == "ABORTED"
        · simp [pollLoop, h, hc, h1, h2, countDownloads]
        · by_cases h3 : pyStartsWith (pyLower s) "fail"
          · simp [pollLoop, h, hc, h1, h2, h3, countDownloads]
          · by_cases h4 : slot + 1 < TRIES
            · simp only [pollLoop, h, hc, h1, h2, h3, h4, Bool.false_eq_true,
                if_false, if_true, countDownloads]
              exact ih (slot + 1) hrest
            · simp only [pollLoop, h, hc, h1, h2, h3, h4, Bool.false_eq_true,
                if_false, if_true, countDownloads]
              exact ih (slot + 1) hrest

/-! ## Trace-counter lemmas -/

theorem countPolls_append (a b : List Ev) :
    countPolls (a ++ b) = countPolls a + countPolls b := by
  induction a with
  | nil => simp [countPolls]
  | cons e rest ih => cases e <;> simp +arith [countPolls, ih]

theorem countDownloads_append (a b : List Ev) :
    countDownloads (a ++ b) = countDownloads a + countDownloads b := by
  induction a with
  | nil => simp [countDownloads]
  | cons e rest ih => cases e <;> simp +arith [countDownloads, ih]

theorem countStops_append (a b : List Ev) :
    countStops (a ++ b) = countStops a + countStops b := by
  induction a with
  | nil => simp [countStops]
  | cons e rest ih => cases e <;> simp +arith [countStops, ih]

/-! ## Cancellation-phase lemmas -/

theorem stopPhase_trace (o : Oracle) (i : Nat) (st : LoopState) :
    (stopPhase o i st).1 = [] ∨
      ∃ ids m, (stopPhase o i st).1 = [.stopCall ids m] := by
  obtain ⟨tasks, mid⟩ := st
  cases tasks with
  | none => cases mid <;> left <;> rfl
  | some l =>
    cases l with
    | nil => cases mid <;> left <;> rfl
    | cons t ts =>
      cases mid with
      | none => left; rfl
      | some m =>
        by_cases hm : m == ""
        · left; simp [stopPhase, hm]
        · right
          exact ⟨t :: ts, m, by simp [stopPhase, hm]⟩

theorem stopPhase_countPolls (o : Oracle) (i : Nat) (st : LoopState) :
    countPolls (stopPhase o i st).1 = 0 := by
  rcases stopPhase_trace o i st with h | ⟨ids, m, h⟩ <;> simp [h, countPolls]

theorem stopPhase_countDownloads (o : Oracle) (i : Nat) (st : LoopState) :
    countDownloads (stopPhase o i st).1 = 0 := by
  rcases stopPhase_trace o i st with h | ⟨ids, m, h⟩ <;> simp [h, countDownloads]

theorem stopPhase_all_dl (o : Oracle) (i : Nat) (st : LoopState) :
    ((stopPhase o i st).1.all dlAfterComplete) = true := by
  rcases stopPhase_trace o i st with h | ⟨ids, m, h⟩ <;> simp [h, dlAfterComplete]

/-! ## Quiescence-loop lemma -/

theorem quiesce_ok (tnet : Nat → NetResult TasksResponse) :
    ∀ n tasks q0, (∀ q, q0 ≤ q → q < q0 + n → tnet q ≠ .exn) →
      ∃ r, quiesce tnet n tasks q0 = .ok r := by
  intro n
  induction n with
  | zero => intro tasks q0 _; exact ⟨tasks, rfl⟩
  | succ m ih =>
    intro tasks q0 hq
    by_cases ht : pyTruthyTasks tasks
    · obtain ⟨r, hr⟩ := ih tasks q0 (fun q h1 h2 => hq q h1 (by omega))
      exact ⟨r, by simp [quiesce, ht, hr]⟩
    · cases hn : tnet q0 with
      | exn => exact absurd hn (hq q0 (by omega) (by omega))
      | ok resp =>
        obtain ⟨r, hr⟩ := ih (check_build_tasks resp) (q0 + 1)
          (fun q h1 h2 => hq q (by omega) (by omega))
        exact ⟨r, by simp [quiesce, ht, hn, hr]⟩

/-! ## Attempt-level lemmas -/

theorem attemptRun_countPolls (o : Oracle) (bt br : String) (i : Nat)
    (st : LoopState) : countPolls (attemptRun o bt br i st).1 ≤ TRIES := by
  have hs := stopPhase_countPolls o i st
  rcases hsp : stopPhase o i st with ⟨sevs, sres⟩
  rw [hsp] at hs
  cases sres with
  | error e => simp [attemptRun, hsp, hs]
  | ok u =>
    cases u
    cases hcn : o.createNet i with
    | exn => simp [attemptRun, hsp, hcn, countPolls_append, hs, countPolls]
    | ok resp =>
      by_cases he : (resp.errors).isSome
      · simp [attemptRun, hsp, hcn, he, countPolls_append, hs, countPolls]
      · cases hb : resp.buildId with
        | none =>
          simp [attemptRun, hsp, hcn, he, hb, countPolls_append, hs, countPolls]
        | some bid =>
          cases hq : quiesce (o.tasksNet i) (SLEEP_MINUTES * 6) (some []) 0 with
          | error e =>
            simp [attemptRun, hsp, hcn, he, hb, hq, countPolls_append, hs,
              countPolls]
          | ok tasks2 =>
            have hp := countPolls_pollLoop (o.statusNet i) (o.dl i) TRIES 0
            cases hpe : (pollLoop (o.statusNet i) (o.dl i) TRIES 0).2 with
            | success =>
              simp [attemptRun, hsp, hcn, he, hb, hq, hpe, countPolls_append,
                hs, countPolls]
              omega
            | bailed =>
              simp [attemptRun, hsp, hcn, he, hb, hq, hpe, countPolls_append,
                hs, countPolls]
              omega
            | timedOut =>
              simp [attemptRun, hsp, hcn, he, hb, hq, hpe, countPolls_append,
                hs, countPolls]
              omega

theorem attemptRun_all_dl (o : Oracle) (bt br : String) (i : Nat)
    (st : LoopState) :
    ((attemptRun o bt br i st).1.all dlAfterComplete) = true := by
  have hs := stopPhase_all_dl o i st
  rcases hsp : stopPhase o i st with ⟨sevs, sres⟩
  rw [hsp] at hs
  cases sres with
  | error e => simp [attemptRun, hsp, hs]
  | ok u =>
    cases u
    cases hcn : o.createNet i with
    | exn => simp [attemptRun, hsp, hcn, List.all_append, hs, dlAfterComplete]
    | ok resp =>
      by_cases he : (resp.errors).isSome
      · simp [attemptRun, hsp, hcn, he, List.all_append, hs, dlAfterComplete]
      · cases hb : resp.buildId with
        | none =>
          simp [attemptRun, hsp, hcn, he, hb, List.all_append, hs,
            dlAfterComplete]
        | some bid =>
          cases hq : quiesce (o.tasksNet i) (SLEEP_MINUTES * 6) (some []) 0 with
          | error e =>
            simp [attemptRun, hsp, hcn, he, hb, hq, List.all_append, hs,
              dlAfterComplete]
          | ok tasks2 =>
            have hp := all_dlAfterComplete_pollLoop (o.statusNet i) (o.dl i)
              TRIES 0
            cases hpe : (pollLoop (o.statusNet i) (o.dl i) TRIES 0).2 <;>
              simp [attemptRun, hsp, hcn, he, hb, hq, hpe, List.all_append, hs,
                hp, dlAfterComplete]

theorem attemptRun_success_download (o : Oracle) (bt br : String) (i : Nat)
    (st : LoopState) :
    (attemptRun o bt br i st).2.1 = .success →
      ∃ s, pyStartsWith s "COMPLETE" = true ∧
        Ev.downloadEv s true ∈ (attemptRun o bt br i st).1 := by
  intro hsucc
  rcases hsp : stopPhase o i st with ⟨sevs, sres⟩
  cases sres with
  | error e => simp [attemptRun, hsp] at hsucc
  | ok u =>
    cases u
    cases hcn : o.createNet i with
    | exn => simp [attemptRun, hsp, hcn] at hsucc
    | ok resp =>
      by_cases he : (resp.errors).isSome
      · simp [attemptRun, hsp, hcn, he] at hsucc
      · cases hb : resp.buildId with
        | none => simp [attemptRun, hsp, hcn, he, hb] at hsucc
        | some bid =>
          cases hq : quiesce (o.tasksNet i) (SLEEP_MINUTES * 6) (some []) 0 with
          | error e => simp [attemptRun, hsp, hcn, he, hb, hq] at hsucc
          | ok tasks2 =>
            cases hpe : (pollLoop (o.statusNet i) (o.dl i) TRIES 0).2 with
            | success =>
              obtain ⟨s, hcs, hm⟩ := pollLoop_success_download (o.statusNet i)
                (o.dl i) TRIES 0 hpe
              refine ⟨s, hcs, ?_⟩
              simp [attemptRun, hsp, hcn, he, hb, hq, hpe, hm]
            | bailed => simp [attemptRun, hsp, hcn, he, hb, hq, hpe] at hsucc
            | timedOut => simp [attemptRun, hsp, hcn, he, hb, hq, hpe] at hsucc

theorem attemptRun_notComplete (o : Oracle) (bt br : String) (i : Nat)
    (st : LoopState)
    (hno : ∀ k, k < TRIES → notCompletePoll (o.statusNet i k) = true) :
    (attemptRun o bt br i st).2.1 ≠ .success ∧
      countDownloads (attemptRun o bt br i st).1 = 0 := by
  have hsd := stopPhase_countDownloads o i st
  have hpoll := pollLoop_notComplete (o.statusNet i) (o.dl i) TRIES 0
    (fun k h1 h2 => hno k (by omega))
  rcases hsp : stopPhase o i st with ⟨sevs, sres⟩
  rw [hsp] at hsd
  cases sres with
  | error e => simp [attemptRun, hsp, hsd]
  | ok u =>
    cases u
    cases hcn : o.createNet i with
    | exn =>
      simp [attemptRun, hsp, hcn, countDownloads_append, hsd, countDownloads]
    | ok resp =>
      by_cases he : (resp.errors).isSome
      · simp [attemptRun, hsp, hcn, he, countDownloads_append, hsd,
          countDownloads]
      · cases hb : resp.buildId with
        | none =>
          simp [attemptRun, hsp, hcn, he, hb, countDownloads_append, hsd,
            countDownloads]
        | some bid =>
          cases hq : quiesce (o.tasksNet i) (SLEEP_MINUTES * 6) (some []) 0 with
          | error e =>
            simp [attemptRun, hsp, hcn, he, hb, hq, countDownloads_append, hsd,
              countDownloads]
          | ok tasks2 =>
            cases hpe : (pollLoop (o.statusNet i) (o.dl i) TRIES 0).2 with
            | success => exact absurd hpe hpoll.1
            | bailed =>
              simp [attemptRun, hsp, hcn, he, hb, hq, hpe,
                countDownloads_append, hsd, countDownloads, hpoll.2]
            | timedOut =>
              simp [attemptRun, hsp, hcn, he, hb, hq, hpe,
                countDownloads_append, hsd, countDownloads, hpoll.2]

theorem stopPhase_error_net (o : Oracle) (i : Nat) (st : LoopState) (e : String)
    (h : (stopPhase o i st).2 = .error e) :
    o.stopNet i = .exn ∨ o.stopNet i = .ok none := by
  obtain ⟨tasks, mid⟩ := st
  cases tasks with
  | none => cases mid <;> simp [stopPhase] at h
  | some l =>
    cases l with
    | nil => cases mid <;> simp [stopPhase] at h
    | cons t ts =>
      cases mid with
      | none => simp [stopPhase] at h
      | some m =>
        by_cases hm : m == ""
        · simp [stopPhase, hm] at h
        · cases hn : o.stopNet i with
          | exn => exact Or.inl rfl
          | ok payload =>
            cases payload with
            | none => exact Or.inr rfl
            | some aborted =>
              simp [stopPhase, hm, stop_build_tasks, hn] at h

theorem attemptRun_no_crash (o : Oracle) (bt br : String) (i : Nat)
    (st : LoopState) (hsafe : attemptSafe o i = true) (e : String) :
    (attemptRun o bt br i st).2.1 ≠ .crash e := by
  simp only [attemptSafe, Bool.and_eq_true, beq_iff_eq, Bool.not_eq_true',
    List.all_eq_true, List.mem_range, beq_eq_false_iff_ne, ne_eq] at hsafe
  obtain ⟨⟨⟨hstop1, hstop2⟩, hcreate⟩, htasks⟩ := hsafe
  rcases hsp : stopPhase o i st with ⟨sevs, sres⟩
  cases sres with
  | error e2 =>
    have := stopPhase_error_net o i st e2 (by rw [hsp])
    rcases this with h | h
    · exact absurd h hstop1
    · exact absurd h hstop2
  | ok u =>
    cases u
    cases hcn : o.createNet i with
    | exn => exact absurd hcn hcreate
    | ok resp =>
      by_cases he : (resp.errors).isSome
      · simp [attemptRun, hsp, hcn, he]
      · cases hb : resp.buildId with
        | none => simp [attemptRun, hsp, hcn, he, hb]
        | some bid =>
          obtain ⟨r, hr⟩ := quiesce_ok (o.tasksNet i) (SLEEP_MINUTES * 6)
            (some []) 0 (fun q h1 h2 => htasks q (by omega))
          cases hpe : (pollLoop (o.statusNet i) (o.dl i) TRIES 0).2 <;>
            simp [attemptRun, hsp, hcn, he, hb, hr, hpe]

/-! ## Run-level lemmas -/

theorem runAttempts_all_dl (o : Oracle) (bt br : String) :
    ∀ fuel i st, ((runAttempts o bt br fuel i st).1.all dlAfterComplete) = true := by
  intro fuel
  induction fuel with
  | zero => intro i st; simp [runAttempts]
  | succ n ih =>
    intro i st
    have ha := attemptRun_all_dl o bt br i st
    rcases har : attemptRun o bt br i st with ⟨evs, res, st2⟩
    rw [har] at ha
    cases res with
    | success => simpa [runAttempts, har] using ha
    | crash e => simpa [runAttempts, har] using ha
    | fail =>
      simp only [runAttempts, har, List.all_append, Bool.and_eq_true]
      exact ⟨ha, ih (i + 1) st2⟩

theorem runAttempts_outcome (o : Oracle) (bt br : String)
    (hsafe : ∀ i, i < MAX_ATTEMPTS → attemptSafe o i = true) :
    ∀ fuel i st, i + fuel ≤ MAX_ATTEMPTS →
      ((runAttempts o bt br fuel i st).2 = .exitOk ∨
        (runAttempts o bt br fuel i st).2 = .exitCode 2) ∧
      ((runAttempts o bt br fuel i st).2 = .exitOk →
        ∃ s, pyStartsWith s "COMPLETE" = true ∧
          Ev.downloadEv s true ∈ (runAttempts o bt br fuel i st).1) := by
  intro fuel
  induction fuel with
  | zero => intro i st _; simp [runAttempts]
  | succ n ih =>
    intro i st hle
    have hdl := attemptRun_success_download o bt br i st
    have hnc := attemptRun_no_crash o bt br i st (hsafe i (by omega))
    rcases har : attemptRun o bt br i st with ⟨evs, res, st2⟩
    rw [har] at hdl hnc
    cases res with
    | success =>
      refine ⟨Or.inl (by simp [runAttempts, har]), fun _ => ?_⟩
      obtain ⟨s, hcs, hm⟩ := hdl rfl
      exact ⟨s, hcs, by simpa [runAttempts, har] using hm⟩
    | crash e => exact absurd rfl (hnc e)
    | fail =>
      obtain ⟨ih1, ih2⟩ := ih (i + 1) st2 (by omega)
      constructor
      · simpa [runAttempts, har] using ih1
      · intro hok
        rw [show (runAttempts o bt br (n + 1) i st).2 =
            (runAttempts o bt br n (i + 1) st2).2 by simp [runAttempts, har]]
            at hok
        obtain ⟨s, hcs, hm⟩ := ih2 hok
        refine ⟨s, hcs, ?_⟩
        simp only [runAttempts, har, List.mem_append]
        exact Or.inr hm

theorem runAttempts_notComplete (o : Oracle) (bt br : String)
    (hsafe : ∀ i, i < MAX_ATTEMPTS → attemptSafe o i = true)
    (hno : ∀ i k, i < MAX_ATTEMPTS → k < TRIES →
      notCompletePoll (o.statusNet i k) = true) :
    ∀ fuel i st, i + fuel ≤ MAX_ATTEMPTS →
      (runAttempts o bt br fuel i st).2 = .exitCode 2 ∧
      countDownloads (runAttempts o bt br fuel i st).1 = 0 := by
  intro fuel
  induction fuel with
  | zero => intro i st _; simp [runAttempts, countDownloads]
  | succ n ih =>
    intro i st hle
    have hnc := attemptRun_no_crash o bt br i st (hsafe i (by omega))
    have hattempt := attemptRun_notComplete o bt br i st
      (fun k hk => hno i k (by omega) hk)
    rcases har : attemptRun o bt br i st with ⟨evs, res, st2⟩
    rw [har] at hnc hattempt
    cases res with
    | success => exact absurd rfl hattempt.1
    | crash e => exact absurd rfl (hnc e)
    | fail =>
      obtain ⟨ih1, ih2⟩ := ih (i + 1) st2 (by omega)
      constructor
      · simpa [runAttempts, har] using ih1
      · simp only [runAttempts, har, countDownloads_append]
        have h0 : countDownloads evs = 0 := hattempt.2
        omega

/-! ## Decimal-rendering lemmas (for mutation-id distinctness) -/

theorem fromDigitsRev_decDigitsRevAux :
    ∀ fuel n, n ≤ fuel → fromDigitsRev (decDigitsRevAux fuel n) = n := by
  intro fuel
  induction fuel with
  | zero =>
    intro n hn
    have : n = 0 := by omega
    subst this
    simp [decDigitsRevAux, fromDigitsRev]
  | succ m ih =>
    intro n hn
    by_cases h : n < 10
    · simp [decDigitsRevAux, h, fromDigitsRev]
    · have hd : n / 10 ≤ m := by
        have h2 : n / 10 < n := Nat.div_lt_self (by omega) (by omega)
        omega
      simp only [decDigitsRevAux, h, if_false, fromDigitsRev, ih (n / 10) hd]
      omega

theorem decDigitsRevAux_lt :
    ∀ fuel n, n ≤ fuel → ∀ d ∈ decDigitsRevAux fuel n, d < 10 := by
  intro fuel
  induction fuel with
  | zero =>
    intro n hn d hd
    have : n = 0 := by omega
    subst this
    simp [decDigitsRevAux] at hd
    omega
  | succ m ih =>
    intro n hn d hd
    by_cases h : n < 10
    · simp [decDigitsRevAux, h] at hd
      omega
    · simp only [decDigitsRevAux, h, if_false, List.mem_cons] at hd
      rcases hd with hd | hd
      · subst hd
        exact Nat.mod_lt _ (by omega)
      · have hdle : n / 10 ≤ m := by
          have h2 : n / 10 < n := Nat.div_lt_self (by omega) (by omega)
          omega
        exact ih (n / 10) hdle d hd

theorem digitChar_val : ∀ d, d < 10 → ((digitChar d).toNat - 48 : Nat) = d := by
  decide

theorem pyStrVal_pyIntStr (n : Nat) : pyStrVal (pyIntStr n) = n := by
  have hmap : ((decDigitsRev n).map digitChar).map (fun c => c.toNat - 48) =
      decDigitsRev n := by
    rw [List.map_map]
    have h1 : List.map ((fun c : Char => c.toNat - 48) ∘ digitChar)
        (decDigitsRev n) = List.map id (decDigitsRev n) :=
      List.map_congr_left
        (fun d hd => digitChar_val d (decDigitsRevAux_lt n n (Nat.le_refl n) d hd))
    rw [h1, List.map_id]
  unfold pyStrVal pyIntStr
  simp only [List.map_reverse, List.reverse_reverse, hmap]
  exact fromDigitsRev_decDigitsRevAux n n (Nat.le_refl n)

theorem pyIntStr_inj {m n : Nat} (h : pyIntStr m = pyIntStr n) : m = n := by
  have := congrArg pyStrVal h
  rwa [pyStrVal_pyIntStr, pyStrVal_pyIntStr] at this

theorem string_append_cancel {q a b : String} (h : q ++ a = q ++ b) : a = b := by
  apply String.ext
  have hd := congrArg String.data h
  rw [String.data_append, String.data_append] at hd
  exact List.append_cancel_left hd

theorem mkMutationId_inj (bt br : String) {t u : Nat}
    (h : mkMutationId bt br t = mkMutationId bt br u) : t = u := by
  unfold mkMutationId at h
  have h2 : pyIntStr t = pyIntStr u := by
    simp only [String.append_assoc] at h
    exact string_append_cancel (string_append_cancel (string_append_cancel
      (string_append_cancel (string_append_cancel h))))
  exact pyIntStr_inj h2

/-! ## Shape lemmas for the cancellation phase and one attempt -/

theorem stopPhase_empty (o : Oracle) (i : Nat) (st : LoopState)
    (h : pyTruthyTasks st.tasks = false) : stopPhase o i st = ([], .ok ()) := by
  obtain ⟨tasks, mid⟩ := st
  cases tasks with
  | none => cases mid <;> rfl
  | some l =>
    cases l with
    | nil => cases mid <;> rfl
    | cons t ts => simp [pyTruthyTasks] at h

theorem stopPhase_call (o : Oracle) (i : Nat) (t : String) (ts : List String)
    (m : String) (hm : (m == "") = false) :
    stopPhase o i ⟨some (t :: ts), some m⟩ =
      ([.stopCall (t :: ts) m],
        match stop_build_tasks (t :: ts) (o.stopNet i) with
        | .error e => .error e
        | .ok _ => .ok ()) := by
  simp [stopPhase, hm]

theorem attemptRun_decomp (o : Oracle) (bt br : String) (i : Nat)
    (st : LoopState) :
    ((attemptRun o bt br i st).1 = (stopPhase o i st).1 ∧
      ∃ e, (stopPhase o i st).2 = .error e) ∨
    ∃ tail, (attemptRun o bt br i st).1 =
        (stopPhase o i st).1 ++ .submit (mkMutationId bt br (o.timeAt i)) :: tail ∧
      countStops tail = 0 := by
  rcases hsp : stopPhase o i st with ⟨sevs, sres⟩
  cases sres with
  | error e =>
    left
    exact ⟨by simp [attemptRun, hsp], e, by simp [hsp]⟩
  | ok u =>
    cases u
    right
    cases hcn : o.createNet i with
    | exn => exact ⟨[], by simp [attemptRun, hsp, hcn], by simp [countStops]⟩
    | ok resp =>
      by_cases he : (resp.errors).isSome
      · exact ⟨[], by simp [attemptRun, hsp, hcn, he], by simp [countStops]⟩
      · cases hb : resp.buildId with
        | none =>
          exact ⟨[], by simp [attemptRun, hsp, hcn, he, hb], by simp [countStops]⟩
        | some bid =>
          cases hq : quiesce (o.tasksNet i) (SLEEP_MINUTES * 6) (some []) 0 with
          | error e =>
            exact ⟨[], by simp [attemptRun, hsp, hcn, he, hb, hq],
              by simp [countStops]⟩
          | ok tasks2 =>
            refine ⟨(pollLoop (o.statusNet i) (o.dl i) TRIES 0).1, ?_,
              countStops_pollLoop _ _ _ _⟩
            cases hpe : (pollLoop (o.statusNet i) (o.dl i) TRIES 0).2 <;>
              simp [attemptRun, hsp, hcn, he, hb, hq, hpe]

theorem attemptRun_submit_mem (o : Oracle) (bt br : String) (i : Nat)
    (st : LoopState) (h : (stopPhase o i st).2 = .ok ()) :
    Ev.submit (mkMutationId bt br (o.timeAt i)) ∈ (attemptRun o bt br i st).1 := by
  rcases attemptRun_decomp o bt br i st with ⟨_, e, he⟩ | ⟨tail, htr, _⟩
  · rw [h] at he
    exact absurd he (by simp)
  · rw [htr]
    simp

/-! ## Claim theorems -/

/-- C1: status classification is a pure function of the status string
alone: a `COMPLETE` prefix classifies as COMPLETED; otherwise exact
equality with `ABORTED` classifies as ABORTED; otherwise a
case-insensitive `fail` prefix classifies as FAILED; any other string is
PENDING, and a PENDING slot continues the poll loop. -/
theorem C1_status_classification (s : String) :
    (pyStartsWith s "COMPLETE" = true → classify s = .COMPLETED) ∧
    (pyStartsWith s "COMPLETE" = false → s = "ABORTED" →
      classify s = .ABORTED) ∧
    (pyStartsWith s "COMPLETE" = false → s ≠ "ABORTED" →
      pyStartsWith (pyLower s) "fail" = true → classify s = .FAILED) ∧
    (pyStartsWith s "COMPLETE" = false → s ≠ "ABORTED" →
      pyStartsWith (pyLower s) "fail" = false →
      classify s = .PENDING ∧
      ∀ (net : Nat → NetResult StatusResponse) (dl : Nat → Bool)
        (fuel slot : Nat) (resp : StatusResponse), net slot = .ok resp →
        check_build_status resp = some s →
        (pollLoop net dl (fuel + 1) slot).2 =
          (pollLoop net dl fuel (slot + 1)).2) := by
  refine ⟨?_, ?_, ?_, ?_⟩
  · intro h
    simp [classify, h]
  · intro h1 h2
    subst h2
    simp [classify, h1]
  · intro h1 h2 h3
    have h2b : (s == "ABORTED") = false := beq_eq_false_iff_ne.mpr h2
    simp [classify, h1, h2b, h3]
  · intro h1 h2 h3
    have h2b : (s == "ABORTED") = false := beq_eq_false_iff_ne.mpr h2
    refine ⟨by simp [classify, h1, h2b, h3], ?_⟩
    intro net dl fuel slot resp hnet hcb
    by_cases h4 : slot + 1 < TRIES <;>
      simp [pollLoop, hnet, hcb, h1, h2b, h3, h4]

/-- C1 witness: the four classification rules evaluated at concrete
status strings. -/
theorem C1_witness :
    classify "COMPLETED" = .COMPLETED ∧ classify "ABORTED" = .ABORTED ∧
    classify "FAILING" = .FAILED ∧ classify "EXECUTING" = .PENDING :=
  ⟨(C1_status_classification "COMPLETED").1 (by decide),
   (C1_status_classification "ABORTED").2.1 (by decide) rfl,
   (C1_status_classification "FAILING").2.2.1 (by decide) (by decide) (by decide),
   ((C1_status_classification "EXECUTING").2.2.2 (by decide) (by decide)
     (by decide)).1⟩

/-- C2: in every run (fresh-submission path with any poll budget and
state, and the resume path), every `try_download` invocation happens
right after a status classified as COMPLETED: every download event in
the trace carries a COMPLETE-prefixed status. -/
theorem C2_download_only_after_complete :
    (∀ (o : Oracle) (bt br : String) (fuel i : Nat) (st : LoopState),
      ((runAttempts o bt br fuel i st).1.all dlAfterComplete) = true) ∧
    ∀ (net : NetResult StatusResponse) (d : Bool),
      ((resumeRun net d).1.all dlAfterComplete) = true := by
  refine ⟨fun o bt br fuel i st => runAttempts_all_dl o bt br fuel i st, ?_⟩
  intro net d
  cases net with
  | exn => simp [resumeRun, dlAfterComplete]
  | ok resp =>
    cases hc : check_build_status resp with
    | none => simp [resumeRun, hc, dlAfterComplete]
    | some s =>
      by_cases h1 : pyStartsWith s "COMPLETE"
      · cases d <;> simp [resumeRun, hc, h1, dlAfterComplete]
      · simp [resumeRun, hc, h1, dlAfterComplete]

/-- C3 counterexample: a run in which the artifact download fails at
the first poll slot, yet the process does not exit non-zero: the
failure event is followed by another poll, a retried (successful)
download, and exit code 0. -/
theorem C3_counterexample :
    (runRelease oDlFail "build" "main").2 = .exitOk ∧
    (runRelease oDlFail "build" "main").1.get? 3 =
      some (.downloadEv "COMPLETED" false) ∧
    countDownloads (runRelease oDlFail "build" "main").1 = 2 := by decide

/-- C3 amended: a failed artifact download inside the poll loop is
caught by the slot's exception handler: the slot records the failed
download, sleeps the 60-second cooldown, consumes the slot, and polling
continues with the remaining budget; it is not immediately fatal. -/
theorem C3_download_failure_not_fatal (net : Nat → NetResult StatusResponse)
    (dl : Nat → Bool) (fuel slot : Nat) (resp : StatusResponse) (s : String)
    (hnet : net slot = .ok resp) (hcb : check_build_status resp = some s)
    (hcs : pyStartsWith s "COMPLETE" = true) (hdl : dl slot = false) :
    pollLoop net dl (fuel + 1) slot =
      (.pollEv (.got resp) :: .sleepEv 5 :: .downloadEv s false :: .sleepEv 60 ::
        (pollLoop net dl fuel (slot + 1)).1,
       (pollLoop net dl fuel (slot + 1)).2) := by
  simp [pollLoop, hnet, hcb, hcs, hdl]

/-- C3 witness: the amended slot behaviour evaluated at a concrete
completed status with a failing download. -/
theorem C3_witness :
    pollLoop (fun _ => .ok ⟨none, some "COMPLETED"⟩) (fun _ => false) 1 0 =
      ([.pollEv (.got ⟨none, some "COMPLETED"⟩), .sleepEv 5,
        .downloadEv "COMPLETED" false, .sleepEv 60], .timedOut) := by
  rw [C3_download_failure_not_fatal (fun _ => .ok ⟨none, some "COMPLETED"⟩)
    (fun _ => false) 0 0 ⟨none, some "COMPLETED"⟩ "COMPLETED" rfl rfl
    (by decide) rfl]
  simp [pollLoop]

/-- C4: within every attempt the number of status polls is bounded by
`TRIES`, which equals `floor(10 * 60 / 30) = 20`; and a poll slot whose
query raises an exception still consumes exactly one slot of the
bounded budget. -/
theorem C4_poll_budget :
    (∀ (o : Oracle) (bt br : String) (i : Nat) (st : LoopState),
      countPolls (attemptRun o bt br i st).1 ≤ TRIES) ∧
    TRIES = MINUTES * 60 / SLEEP_SEC ∧ TRIES = 20 ∧
    ∀ (net : Nat → NetResult StatusResponse) (dl : Nat → Bool)
      (fuel slot : Nat), net slot = .exn →
      pollLoop net dl (fuel + 1) slot =
        (.pollEv .exn :: .sleepEv 60 :: (pollLoop net dl fuel (slot + 1)).1,
         (pollLoop net dl fuel (slot + 1)).2) := by
  refine ⟨fun o bt br i st => attemptRun_countPolls o bt br i st,
    by decide, by decide, ?_⟩
  intro net dl fuel slot h
  simp [pollLoop, h]

/-- C4 witness: the poll bound at a concrete attempt and the
exception-slot equation at a concrete oracle. -/
theorem C4_witness :
    countPolls (attemptRun oHappy "build" "main" 0 ⟨some [], none⟩).1 ≤ TRIES ∧
    pollLoop (fun _ => .exn) (fun _ => true) 1 0 =
      ([.pollEv .exn, .sleepEv 60], .timedOut) := by
  constructor
  · exact C4_poll_budget.1 oHappy "build" "main" 0 ⟨some [], none⟩
  · rw [C4_poll_budget.2.2.2 (fun _ => .exn) (fun _ => true) 0 0 rfl]
    simp [pollLoop]

/-- C5 counterexample: a run in which every attempt reads the same
integer second from the clock: all five attempts send the create-build
mutation with the identical mutation id, so two distinct attempts
collide. -/
theorem C5_counterexample :
    (runRelease oSameSecond "build" "main").1 =
      List.replicate MAX_ATTEMPTS (.submit "Cirrus CI Build build-main-777") ∧
    (runRelease oSameSecond "build" "main").1.get? 0 =
      (runRelease oSameSecond "build" "main").1.get? 1 := by decide

/-- C5 amended: each attempt's create-build mutation carries the id
built from the build type, branch and the integer second read at that
attempt, and two attempts get distinct mutation ids exactly when they
read distinct integer seconds; attempts submitted within the same
second collide. -/
theorem C5_distinct_times_distinct_ids (o : Oracle) (bt br : String)
    (i j : Nat) (st : LoopState) (ht : o.timeAt i ≠ o.timeAt j) :
    mkMutationId bt br (o.timeAt i) ≠ mkMutationId bt br (o.timeAt j) ∧
    ((stopPhase o i st).2 = .ok () →
      Ev.submit (mkMutationId bt br (o.timeAt i)) ∈ (attemptRun o bt br i st).1) :=
  ⟨fun h => ht (mkMutationId_inj bt br h),
   fun h => attemptRun_submit_mem o bt br i st h⟩

/-- C5 witness: distinct seconds at attempts 0 and 1 of a concrete
oracle give distinct mutation ids, and attempt 0 submits its id. -/
theorem C5_witness :
    mkMutationId "build" "main" (oHappy.timeAt 0) ≠
      mkMutationId "build" "main" (oHappy.timeAt 1) ∧
    Ev.submit (mkMutationId "build" "main" (oHappy.timeAt 0)) ∈
      (attemptRun oHappy "build" "main" 0 ⟨some [], none⟩).1 := by
  have h := C5_distinct_times_distinct_ids oHappy "build" "main" 0 1
    ⟨some [], none⟩ (by decide)
  exact ⟨h.1, h.2 rfl⟩

/-- C6: if the state carried into an attempt records a non-empty task
list (and the always-non-empty mutation id of the previous attempt),
the attempt issues exactly one cancellation call, carrying exactly that
list, as its first event — in particular before the create-build
submission, which immediately follows it whenever the cancellation call
returns; if no tasks were recorded, no cancellation call is made. -/
theorem C6_cancel_exactly_recorded (o : Oracle) (bt br : String) (i : Nat)
    (st : LoopState) :
    (∀ ids m, st.tasks = some ids → st.mutationId = some m → m ≠ "" →
      ids ≠ [] →
      ∃ rest, (attemptRun o bt br i st).1 = .stopCall ids m :: rest ∧
        countStops rest = 0 ∧
        ∀ b, o.stopNet i = .ok (some b) →
          ∃ rest2,
            rest = .submit (mkMutationId bt br (o.timeAt i)) :: rest2) ∧
    (pyTruthyTasks st.tasks = false →
      countStops (attemptRun o bt br i st).1 = 0) := by
  constructor
  · intro ids m h1 h2 h3 h4
    cases ids with
    | nil => exact absurd rfl h4
    | cons t ts =>
      have hm : (m == "") = false := beq_eq_false_iff_ne.mpr h3
      have hst : st = ⟨some (t :: ts), some m⟩ := by
        obtain ⟨tasks, mid⟩ := st
        simp only at h1 h2
        rw [h1, h2]
      subst hst
      have hcall := stopPhase_call o i t ts m hm
      rcases attemptRun_decomp o bt br i ⟨some (t :: ts), some m⟩ with
        ⟨htr, e, he⟩ | ⟨tail, htr, hts⟩
      · refine ⟨[], by simp [htr, hcall], by simp [countStops], ?_⟩
        intro b hb
        rw [hcall] at he
        simp [stop_build_tasks, hb] at he
      · refine ⟨.submit (mkMutationId bt br (o.timeAt i)) :: tail,
          by simp [htr, hcall], by simp [countStops, hts], ?_⟩
        intro b _
        exact ⟨tail, rfl⟩
  · intro h
    have hempty := stopPhase_empty o i st h
    rcases attemptRun_decomp o bt br i st with ⟨htr, e, he⟩ | ⟨tail, htr, hts⟩
    · rw [hempty] at he
      exact absurd he (by simp)
    · rw [htr, hempty]
      simp [countStops, hts]

/-- C6 witness: an attempt entered with one recorded task issues the
single cancellation call first and then submits; an attempt entered
with no recorded tasks issues none. -/
theorem C6_witness :
    (∃ rest, (attemptRun oHappy "build" "main" 1 ⟨some ["t1"], some "m0"⟩).1 =
      .stopCall ["t1"] "m0" :: rest ∧ countStops rest = 0 ∧
      ∀ b, oHappy.stopNet 1 = .ok (some b) →
        ∃ rest2,
          rest = .submit (mkMutationId "build" "main" (oHappy.timeAt 1)) :: rest2) ∧
    countStops (attemptRun oHappy "build" "main" 0 ⟨some [], none⟩).1 = 0 := by
  constructor
  · exact (C6_cancel_exactly_recorded oHappy "build" "main" 1
      ⟨some ["t1"], some "m0"⟩).1 ["t1"] "m0" rfl rfl (by decide) (by decide)
  · exact (C6_cancel_exactly_recorded oHappy "build" "main" 0
      ⟨some [], none⟩).2 (by decide)

/-- C7 counterexample: a run in which the cancellation call before the
second attempt raises: the whole run crashes with the unhandled
exception instead of logging and continuing, so a failed cancellation
can be fatal. -/
theorem C7_counterexample :
    (runRelease oStopRaises "build" "main").2 = .crash "urlopen" ∧
    Ev.stopCall ["t1", "t2"] "Cirrus CI Build build-main-500" ∈
      (runRelease oStopRaises "build" "main").1 := by decide

/-- C7 amended: when the cancellation request completes with a
well-formed response, the attempt continues to the new submission
whatever the reported abort count; but when the cancellation call
raises (`urlopen` failure) or the response lacks the expected fields
(`KeyError`), the exception is unhandled and the run crashes. -/
theorem C7_cancel_failure_modes (o : Oracle) (bt br : String) (i : Nat)
    (t : String) (ts : List String) (m : String) (hm : m ≠ "") :
    (∀ b, o.stopNet i = .ok (some b) →
      ∃ tail, (attemptRun o bt br i ⟨some (t :: ts), some m⟩).1 =
        .stopCall (t :: ts) m ::
          .submit (mkMutationId bt br (o.timeAt i)) :: tail) ∧
    (o.stopNet i = .exn →
      attemptRun o bt br i ⟨some (t :: ts), some m⟩ =
        ([.stopCall (t :: ts) m], .crash "urlopen",
          ⟨some (t :: ts), some m⟩)) ∧
    (o.stopNet i = .ok none →
      attemptRun o bt br i ⟨some (t :: ts), some m⟩ =
        ([.stopCall (t :: ts) m], .crash "KeyError",
          ⟨some (t :: ts), some m⟩)) := by
  have hmb : (m == "") = false := beq_eq_false_iff_ne.mpr hm
  refine ⟨?_, ?_, ?_⟩
  · intro b hb
    have hcall := stopPhase_call o i t ts m hmb
    rcases attemptRun_decomp o bt br i ⟨some (t :: ts), some m⟩ with
      ⟨htr, e, he⟩ | ⟨tail, htr, hts⟩
    · rw [hcall] at he
      simp [stop_build_tasks, hb] at he
    · exact ⟨tail, by simp [htr, hcall]⟩
  · intro hb
    simp [attemptRun, stopPhase, hmb, stop_build_tasks, hb]
  · intro hb
    simp [attemptRun, stopPhase, hmb, stop_build_tasks, hb]

/-- C7 witness: the continue-on-report mode at a concrete oracle whose
cancellation returns a well-formed response, and the crash mode at a
concrete oracle whose cancellation raises. -/
theorem C7_witness :
    (∃ tail, (attemptRun oHappy "build" "main" 1 ⟨some ["t1"], some "m0"⟩).1 =
      .stopCall ["t1"] "m0" ::
        .submit (mkMutationId "build" "main" (oHappy.timeAt 1)) :: tail) ∧
    attemptRun oStopRaises "build" "main" 1 ⟨some ["t1", "t2"], some "m0"⟩ =
      ([.stopCall ["t1", "t2"] "m0"], .crash "urlopen",
        ⟨some ["t1", "t2"], some "m0"⟩) := by
  constructor
  · exact (C7_cancel_failure_modes oHappy "build" "main" 1 "t1" [] "m0"
      (by decide)).1 ["t1"] rfl
  · exact (C7_cancel_failure_modes oStopRaises "build" "main" 1 "t1" ["t2"]
      "m0" (by decide)).2.1 rfl

/-- C8 counterexample: a poll slot that observes a transient query
error (a response with an `errors` field, so `check_build_status`
returns `None`) sleeps the 60-second cooldown of the exception handler,
not the normal 30-second interval: the run never sleeps 30 seconds. -/
theorem C8_counterexample :
    pollLoop pollErrThenComplete (fun _ => true) TRIES 0 =
      ([.pollEv (.got ⟨some "boom", none⟩), .sleepEv 60,
        .pollEv (.got ⟨none, some "COMPLETED"⟩), .sleepEv 5,
        .downloadEv "COMPLETED" true], .success) ∧
    check_build_status ⟨some "boom", none⟩ = none ∧
    Ev.sleepEv 30 ∉ (pollLoop pollErrThenComplete (fun _ => true) TRIES 0).1 := by
  decide

/-- C8 amended: a non-terminal status string sleeps the normal
30-second interval and polls again (except in the final slot); a
transient query error (`None` status, via the `AttributeError` it
triggers) and a raised exception both sleep the 60-second cooldown;
each of the three consumes exactly one poll slot. -/
theorem C8_error_cooldowns (net : Nat → NetResult StatusResponse)
    (dl : Nat → Bool) (fuel slot : Nat) :
    (∀ resp s, net slot = .ok resp → check_build_status resp = some s →
      pyStartsWith s "COMPLETE" = false → (s == "ABORTED") = false →
      pyStartsWith (pyLower s) "fail" = false → slot + 1 < TRIES →
      pollLoop net dl (fuel + 1) slot =
        (.pollEv (.got resp) :: .sleepEv 30 ::
          (pollLoop net dl fuel (slot + 1)).1,
         (pollLoop net dl fuel (slot + 1)).2)) ∧
    (∀ resp, net slot = .ok resp → check_build_status resp = none →
      pollLoop net dl (fuel + 1) slot =
        (.pollEv (.got resp) :: .sleepEv 60 ::
          (pollLoop net dl fuel (slot + 1)).1,
         (pollLoop net dl fuel (slot + 1)).2)) ∧
    (net slot = .exn →
      pollLoop net dl (fuel + 1) slot =
        (.pollEv .exn :: .sleepEv 60 :: (pollLoop net dl fuel (slot + 1)).1,
         (pollLoop net dl fuel (slot + 1)).2)) := by
  refine ⟨?_, ?_, ?_⟩
  · intro resp s hnet hcb h1 h2 h3 h4
    simp [pollLoop, hnet, hcb, h1, h2, h3, h4]
  · intro resp hnet hcb
    simp [pollLoop, hnet, hcb]
  · intro hnet
    simp [pollLoop, hnet]

/-- C8 witness: the three slot behaviours at concrete responses — a
pending status sleeps 30, an errors-field response sleeps 60, a raised
exception sleeps 60. -/
theorem C8_witness :
    pollLoop (fun _ => .ok ⟨none, some "EXECUTING"⟩) (fun _ => true) 1 0 =
      ([.pollEv (.got ⟨none, some "EXECUTING"⟩), .sleepEv 30], .timedOut) ∧
    pollLoop (fun _ => .ok ⟨some "boom", none⟩) (fun _ => true) 1 0 =
      ([.pollEv (.got ⟨some "boom", none⟩), .sleepEv 60], .timedOut) ∧
    pollLoop (fun _ => .exn) (fun _ => false) 1 0 =
      ([.pollEv .exn, .sleepEv 60], .timedOut) := by
  refine ⟨?_, ?_, ?_⟩
  · rw [(C8_error_cooldowns (fun _ => .ok ⟨none, some "EXECUTING"⟩)
      (fun _ => true) 0 0).1 ⟨none, some "EXECUTING"⟩ "EXECUTING" rfl rfl
      (by decide) (by decide) (by decide) (by decide)]
    simp [pollLoop]
  · rw [(C8_error_cooldowns (fun _ => .ok ⟨some "boom", none⟩)
      (fun _ => true) 0 0).2.1 ⟨some "boom", none⟩ rfl (by decide)]
    simp [pollLoop]
  · rw [(C8_error_cooldowns (fun _ => .exn) (fun _ => false) 0 0).2.2 rfl]
    simp [pollLoop]

/-- C9: for every oracle whose unguarded call sites raise no exception,
the process exits 0 or 2; exit 0 happens only after a successful
download triggered by a COMPLETED status; and if no poll within the
attempt and slot budgets ever classifies as COMPLETED — in particular
when every poll returns `FAILING` — the process exits with code 2
having performed zero downloads. -/
theorem C9_exit_codes (o : Oracle) (bt br : String)
    (hsafe : ∀ i, i < MAX_ATTEMPTS → attemptSafe o i = true) :
    ((runRelease o bt br).2 = .exitOk ∨
      (runRelease o bt br).2 = .exitCode 2) ∧
    ((runRelease o bt br).2 = .exitOk →
      ∃ s, pyStartsWith s "COMPLETE" = true ∧
        Ev.downloadEv s true ∈ (runRelease o bt br).1) ∧
    ((∀ i, i < MAX_ATTEMPTS → ∀ k, k < TRIES →
        notCompletePoll (o.statusNet i k) = true) →
      (runRelease o bt br).2 = .exitCode 2 ∧
      countDownloads (runRelease o bt br).1 = 0) := by
  have h1 := runAttempts_outcome o bt br hsafe MAX_ATTEMPTS 0
    ⟨some [], none⟩ (by omega)
  refine ⟨h1.1, h1.2, ?_⟩
  intro hno
  exact runAttempts_notComplete o bt br hsafe
    (fun i k hi hk => hno i hi k hk) MAX_ATTEMPTS 0 ⟨some [], none⟩ (by omega)

/-- C9 witness: with every poll returning `FAILING`, the run exits with
code 2 and performs zero downloads. -/
theorem C9_witness :
    (runRelease oAllFailing "build" "main").2 = .exitCode 2 ∧
    countDownloads (runRelease oAllFailing "build" "main").1 = 0 := by
  exact (C9_exit_codes oAllFailing "build" "main" (by decide)).2.2 (by decide)

/-- C10: on the resume path, whenever `check_build_status` returns
`None` — as it does for every response carrying an `errors` field — the
unguarded `status.startswith` raises an unhandled `AttributeError` and
the process crashes instead of logging and retrying. -/
theorem C10_resume_none_crashes :
    (∀ (resp : StatusResponse) (d : Bool), check_build_status resp = none →
      resumeRun (.ok resp) d =
        ([.pollEv (.got resp)], .crash "AttributeError")) ∧
    (∀ (e : String) (d : Bool),
      resumeRun (.ok ⟨some e, none⟩) d =
        ([.pollEv (.got ⟨some e, none⟩)], .crash "AttributeError")) ∧
    check_build_status ⟨some "boom", none⟩ = none := by
  refine ⟨?_, ?_, by decide⟩
  · intro resp d h
    simp [resumeRun, h]
  · intro e d
    simp [resumeRun, check_build_status]

/-- C10 witness: the crash evaluated at a concrete errors-field
response. -/
theorem C10_witness :
    resumeRun (.ok ⟨some "boom", none⟩) true =
      ([.pollEv (.got ⟨some "boom", none⟩)], .crash "AttributeError") :=
  C10_resume_none_crashes.1 ⟨some "boom", none⟩ true (by decide)

end Cirrus

